import Mathlib

set_option maxHeartbeats 1000000

/-!
Verification of the configuration-resolution layer of vLLM
(`vllm/engine/arg_utils.py`).

This file gives a shallow embedding of `EngineArgs.__post_init__`,
`EngineArgs.create_model_config`, `EngineArgs.create_load_config`,
`EngineArgs.create_engine_config`, `EngineArgs._is_v1_supported_oracle`,
`EngineArgs._set_default_args_v0` and `EngineArgs._set_default_args_v1`.

Conventions of the embedding:
* Python `int` is `Int`, Python `float` fields are `ℚ` (only compared for
  equality with their defaults or with `0` in this module, so `ℚ` is faithful),
  Python `Optional[T]` is `Option T`, Python `str` is `String`.
* Opaque payload values that this module only passes through or compares with
  `None` (dicts such as `additional_config`, `kv_transfer_config`,
  `tokenizer_pool_extra_config`, class objects such as
  `distributed_executor_backend`) are abstracted as `Option String`.
* `raise` is modelled with `Except`: a raised exception aborts resolution and
  no partial result is produced.
* External collaborators (the `vllm.platforms.current_platform` probe, the
  `envs` environment flags, `check_gguf_file`, `MODELS_ON_S3`, the external
  constructors `ModelConfig`, `SpeculativeConfig.maybe_create_spec_config`,
  and `version._prev_minor_version_was`) are supplied once, read-only, as an
  `ExtProbe` record of probe results, mirroring section 5/6 of the design.
* Sub-configuration records store exactly the values the source passes to the
  corresponding constructors; pass-through fields that no check in this module
  ever reads again are omitted from the records.
-/

/-- The tri-state runtime-version override: the `VLLM_USE_V1` environment
variable, which is either set to 1 (`forceOn`), set to 0 (`forceOff`), or
unset. -/
inductive V1Override
  | forceOn
  | forceOff
  | unset
  deriving DecidableEq, Inhabited

/-- Truthiness of `envs.VLLM_USE_V1` (`bool(int(os.getenv("VLLM_USE_V1","0")))`):
true exactly when the variable is set to 1. -/
def V1Override.isForceOn : V1Override → Bool
  | .forceOn => true
  | _ => false

/-- `envs.is_set("VLLM_USE_V1")`. -/
def V1Override.isSet : V1Override → Bool
  | .unset => false
  | _ => true

/-- `vllm.usage.usage_lib.UsageContext`, restricted to the two values that key
the V1 default-batched-tokens table (`LLM_CLASS` is the embedded-library call,
`OPENAI_API_SERVER` the api server). -/
inductive UsageContext
  | llmClass
  | openaiApiServer
  deriving DecidableEq, Inhabited

/-- Modelled from the spec: the partially-resolved model capabilities that the
external `ModelConfig` constructor (in `vllm/config.py`, outside this module)
derives from the raw options — the task kind, the runner type, the
architecture class, the attention variant (MLA) flag, the v1-compatibility
flag, the resolved context length and sliding window.  The source of this
module only consumes these via `model_config.<field>`. -/
structure ModelCaps where
  task : String := "generate"
  runner_type : String := "generate"
  architectures : String := ""
  is_v1_compatible : Bool := true
  use_mla : Bool := false
  is_multimodal_model : Bool := false
  is_attention_free : Bool := false
  max_model_len : Int := 4096
  sliding_window : Option Int := none
  deriving DecidableEq, Inhabited

/-- The speculative-decoding sub-configuration, as returned by the external
builder `SpeculativeConfig.maybe_create_spec_config` (absent when no draft
model is specified).  This module only reads its `num_lookahead_slots`
(the speculative-decoding-mandated lookahead value). -/
structure SpeculativeConfig where
  num_lookahead_slots : Int
  deriving DecidableEq, Inhabited

/-- The read-only external context of one resolution: the hardware/usage probe
(`current_platform`), the environment flags (`envs`), and the results of the
external collaborators invoked by `create_engine_config`. -/
structure ExtProbe where
  /-- `current_platform.is_cuda()` -/
  is_cuda : Bool := true
  /-- `current_platform.is_cpu()` -/
  is_cpu : Bool := false
  /-- `current_platform.get_device_capability().major` -/
  device_capability_major : Int := 8
  /-- `current_platform.get_device_name()` -/
  device_name : String := "a100"
  /-- `current_platform.device_type` -/
  device_type : String := "cuda"
  /-- the `VLLM_USE_V1` environment variable -/
  v1_override : V1Override := .unset
  /-- `envs.VLLM_USE_V1_BY_DEFAULT` -/
  v1_by_default : Bool := false
  /-- `envs.VLLM_USE_RAY_SPMD_WORKER` -/
  use_ray_spmd_worker : Bool := false
  /-- `parallel_config.use_ray`, derived by the external `ParallelConfig` -/
  parallel_use_ray : Bool := false
  /-- `envs.VLLM_CI_USE_S3` -/
  ci_use_s3 : Bool := false
  /-- `self.model in MODELS_ON_S3` -/
  model_on_s3 : Bool := false
  /-- `MODEL_WEIGHTS_S3_BUCKET` -/
  s3_bucket : String := "s3bucket"
  /-- `check_gguf_file(self.model)` -/
  is_gguf : Bool := false
  /-- capabilities derived by the external `ModelConfig` constructor -/
  caps : ModelCaps := {}
  /-- result of `SpeculativeConfig.maybe_create_spec_config` (`None` when no
  draft model is specified) -/
  specConfig : Option SpeculativeConfig := none
  /-- result of `version._prev_minor_version_was(...)` for the configured
  `show_hidden_metrics_for_version` string -/
  prev_minor_ok : Bool := false
  deriving DecidableEq, Inhabited

/-- `EngineArgs` (the RawOptionSet): the fields of the source dataclass that
participate in the logic embedded here, with the source's default values.
Pure pass-through fields that no embedded check ever reads (e.g. `revision`,
`rope_scaling`, `hf_overrides`, the typical-acceptance sampler knobs) are
omitted. -/
structure EngineArgs where
  model : String := "facebook/opt-125m"
  tokenizer : Option String := none
  task : String := "auto"
  download_dir : Option String := none
  load_format : String := "auto"
  dtype : String := "auto"
  kv_cache_dtype : String := "auto"
  seed : Int := 0
  max_model_len : Option Int := none
  distributed_executor_backend : Option String := none
  pipeline_parallel_size : Int := 1
  tensor_parallel_size : Int := 1
  max_parallel_loading_workers : Option Int := none
  block_size : Option Int := none
  enable_prefix_caching : Option Bool := none
  swap_space : ℚ := 4
  cpu_offload_gb : ℚ := 0
  gpu_memory_utilization : ℚ := 0.90
  max_num_batched_tokens : Option Int := none
  max_num_partial_prefills : Option Int := some 1
  max_long_partial_prefills : Option Int := some 1
  long_prefill_token_threshold : Option Int := some 0
  max_num_seqs : Option Int := none
  disable_log_stats : Bool := false
  quantization : Option String := none
  disable_custom_all_reduce : Bool := false
  tokenizer_pool_size : Int := 0
  tokenizer_pool_type : String := "ray"
  tokenizer_pool_extra_config : Option String := none
  enable_lora : Bool := false
  enable_lora_bias : Bool := false
  max_loras : Int := 1
  max_lora_rank : Int := 16
  enable_prompt_adapter : Bool := false
  max_prompt_adapters : Int := 1
  max_prompt_adapter_token : Int := 0
  fully_sharded_loras : Bool := false
  lora_extra_vocab_size : Int := 256
  lora_dtype : String := "auto"
  max_cpu_loras : Option Int := none
  device : String := "auto"
  num_scheduler_steps : Int := 1
  multi_step_stream_outputs : Bool := true
  ray_workers_use_nsight : Bool := false
  num_gpu_blocks_override : Option Int := none
  num_lookahead_slots : Int := 0
  model_loader_extra_config : Option (List (String × String)) := none
  ignore_patterns : Option String := none
  preemption_mode : Option String := none
  scheduler_delay_factor : ℚ := 0
  enable_chunked_prefill : Option Bool := none
  guided_decoding_backend : String := "xgrammar"
  logits_processor_pattern : Option String := none
  speculative_model : Option String := none
  num_speculative_tokens : Option Int := none
  qlora_adapter_name_or_path : Option String := none
  show_hidden_metrics_for_version : Option String := none
  otlp_traces_endpoint : Option String := none
  collect_detailed_traces : Option String := none
  disable_async_output_proc : Bool := false
  scheduling_policy : String := "fcfs"
  scheduler_cls : String := "vllm.core.scheduler.Scheduler"
  worker_cls : String := "auto"
  kv_transfer_config : Option String := none
  calculate_kv_scales : Option Bool := none
  additional_config : Option String := none
  enable_reasoning : Option Bool := none
  /-- source field `reasoning_parser` (renamed here) -/
  reasoning_backend_arg : Option String := none
  deriving DecidableEq, Inhabited

/-- Python truthiness of an `Optional[str]`: `None` and `""` are falsy. -/
def strTruthy : Option String → Bool
  | none => false
  | some s => s != ""

/-- `EngineArgs.__post_init__` (lines 219-221): when the tokenizer is unset
(`not self.tokenizer`, i.e. `None` or empty), it is set to the model string.
(The `compilation_config` coercion and plugin loading are external.) -/
def postInit (a : EngineArgs) : EngineArgs :=
  if a.tokenizer = none ∨ a.tokenizer = some "" then
    { a with tokenizer := some a.model }
  else a

/-- The `ModelConfig` produced by `create_model_config`: the fields of the
external `ModelConfig` object that this module reads afterwards.  Pass-through
arguments kept: `model`, `tokenizer`, `quantization`, `seed`; the derived
capabilities come from `ExtProbe.caps` (the constructor itself is external). -/
structure ModelConfig where
  model : String
  tokenizer : Option String
  task : String
  quantization : Option String
  seed : Int
  runner_type : String
  architectures : String
  is_v1_compatible : Bool
  use_mla : Bool
  is_multimodal_model : Bool
  is_attention_free : Bool
  max_model_len : Int
  sliding_window : Option Int
  deriving DecidableEq, Inhabited

/-- `EngineArgs.create_model_config` (lines 1083-1132).  The gguf special case
overwrites `quantization` and `load_format`; the CI-S3 special case rewrites
`model` and `load_format` (this embedding models plain `EngineArgs`, for which
the `not isinstance(self, AsyncEngineArgs)` guard holds).  Both mutate `self`,
so the updated argument record is returned alongside the config. -/
def createModelConfig (a : EngineArgs) (ext : ExtProbe) : EngineArgs × ModelConfig :=
  let a1 :=
    if ext.is_gguf then
      { a with quantization := some "gguf", load_format := "gguf" }
    else a
  let a2 :=
    if ext.ci_use_s3 ∧ ext.model_on_s3 ∧ a1.load_format = "auto" then
      { a1 with model := ext.s3_bucket ++ "/" ++ a1.model,
                load_format := "runai_streamer" }
    else a1
  (a2,
   { model := a2.model
     tokenizer := a2.tokenizer
     task := ext.caps.task
     quantization := a2.quantization
     seed := a2.seed
     runner_type := ext.caps.runner_type
     architectures := ext.caps.architectures
     is_v1_compatible := ext.caps.is_v1_compatible
     use_mla := ext.caps.use_mla
     is_multimodal_model := ext.caps.is_multimodal_model
     is_attention_free := ext.caps.is_attention_free
     max_model_len := ext.caps.max_model_len
     sliding_window := ext.caps.sliding_window })

/-- The fatal errors this module can raise.  Constructors correspond one-to-one
to the `raise` sites of the source; the Python message text is abstracted into
the constructor (with the datum the message interpolates). -/
inductive Err
  /-- `NotImplementedError(f"VLLM_USE_V1=1 is not supported with {feature_name}")`
  raised by `_raise_or_warning` when the override forces V1 (line 1665). -/
  | overrideConflict (feature : String)
  /-- `ValueError("BitsAndBytes quantization and QLoRA adapter only support
  'bitsandbytes' load format, but got {load_format}")` (line 1140). -/
  | bnbLoadFormatMismatch (got : String)
  /-- `ValueError("BitsAndBytes load format and QLoRA adapter only support
  'bitsandbytes' quantization, but got {quantization}")` (line 1147). -/
  | bnbQuantMismatch (got : Option String)
  /-- `ValueError("Speculative decoding is not supported with multi-step
  (--num-scheduler-steps > 1)")` (line 1256). -/
  | multiStepSpecDecode
  /-- `ValueError("Multi-Step Chunked-Prefill is not supported for
  pipeline-parallel-size > 1")` (line 1259). -/
  | multiStepChunkedPP
  /-- `ValueError("Chunked prefill is not supported for pooling models")`
  (line 1588). -/
  | chunkedPrefillPooling
  /-- `ValueError(f"Invalid module {m} in collect_detailed_traces. ...")`
  (line 1338); the message names the invalid entry `m`. -/
  | invalidTraceModule (m : String)
  /-- the `assert use_v1 == envs.VLLM_USE_V1` on line 1189. -/
  | assertViolation
  deriving DecidableEq, Inhabited

/-- Spec taxonomy (section 7): ConfigurationConflict — mutually inconsistent
explicit settings, including a forced override contradicting a
hard-unsupported rule, the quantization/load-format mismatch, and the
multi-step incompatibilities. -/
def Err.isConfigurationConflict : Err → Bool
  | .overrideConflict _ => true
  | .bnbLoadFormatMismatch _ => true
  | .bnbQuantMismatch _ => true
  | .multiStepSpecDecode => true
  | .multiStepChunkedPP => true
  | _ => false

/-- Spec taxonomy (section 7): ValidationError — a single field or
field-combination violates a constraint (invalid trace-module name, chunked
prefill requested for a pooling task). -/
def Err.isValidationError : Err → Bool
  | .chunkedPrefillPooling => true
  | .invalidTraceModule _ => true
  | _ => false

/-- A fatal resolution failure, together with the names of the
sub-configurations that had already been constructed when the error was
raised (the source builds them sequentially; an exception aborts the rest). -/
structure Failure where
  err : Err
  built : List String
  deriving DecidableEq, Inhabited

/-- A notice record of the notice stream: level and feature name. -/
inductive NoticeLevel
  | info
  | warning
  deriving DecidableEq, Inhabited

/-- One emitted notice (`logger.info` / `logger.warning` with a feature name). -/
structure Notice where
  level : NoticeLevel
  feature : String
  deriving DecidableEq, Inhabited

/-- Tier A of `_is_v1_supported_oracle` (lines 1376-1495): the ordered
hard-unsupported checks, as an ordered table of (predicate, feature-name)
rows.  Each branch of the source uniformly calls
`_raise_or_warning(feature_name, ...)` and returns `False`; the rows appear
here in the source's evaluation order. -/
def tierARules (a : EngineArgs) (mc : ModelConfig) (ext : ExtProbe) :
    List (Bool × String) :=
  [ (decide (a.logits_processor_pattern ≠ none), "--logits-processor-pattern"),
    (decide (a.preemption_mode ≠ none), "--preemption-mode"),
    (a.disable_async_output_proc, "--disable-async-output-proc"),
    (decide (a.scheduling_policy ≠ "fcfs"), "--scheduling-policy"),
    (decide (a.scheduler_cls ≠ "vllm.core.scheduler.Scheduler"), "--scheduler-cls"),
    (decide (a.worker_cls ≠ "auto"), "--worker-cls"),
    (decide (a.num_scheduler_steps ≠ 1), "--num-scheduler-steps"),
    (decide (a.scheduler_delay_factor ≠ 0), "--scheduler-delay-factor"),
    (decide (a.additional_config ≠ none), "--additional-config"),
    (decide (a.guided_decoding_backend ≠ "xgrammar"), "--guided-decoding-backend"),
    (decide (ext.is_cuda ∧ ext.device_capability_major < 8), "Compute Capacity < 8.0"),
    (decide (a.kv_cache_dtype ≠ "auto"), "--kv-cache-dtype"),
    (a.enable_prompt_adapter, "--enable-prompt-adapter"),
    (decide (mc.task ≠ "generate"), "--task " ++ mc.task),
    (!mc.is_v1_compatible, mc.architectures),
    (decide (a.max_num_partial_prefills ≠ some 1 ∨ a.max_long_partial_prefills ≠ some 1
       ∨ a.long_prefill_token_threshold ≠ some 0), "Concurrent Partial Prefill"),
    (strTruthy a.otlp_traces_endpoint || strTruthy a.collect_detailed_traces,
      "--otlp-traces-endpoint"),
    (decide ((a.speculative_model ≠ none ∨ a.num_speculative_tokens ≠ none)
       ∧ a.speculative_model ≠ some "[ngram]"), "Speculative Decoding"),
    (decide (a.kv_transfer_config ≠ none), "--kv-transfer-config") ]

/-- The feature name of the first matching tier-A rule, or `none` when every
check passes. -/
def tierAMatch (a : EngineArgs) (mc : ModelConfig) (ext : ExtProbe) : Option String :=
  ((tierARules a mc ext).find? (fun r => r.1)).map (fun r => r.2)

/-- Tier B of `_is_v1_supported_oracle` (lines 1497-1541): the experimental
features, in source order.  Each match logs an experimental warning and
continues when `VLLM_USE_V1=1`, and otherwise logs an informational fallback
notice and returns `False` (so only the first match is reported then). -/
def tierBMatches (a : EngineArgs) (mc : ModelConfig) (ext : ExtProbe) : List String :=
  (if mc.use_mla then ["MLA"] else []) ++
  (if a.enable_lora then ["LoRA"] else []) ++
  (if a.pipeline_parallel_size > 1 then ["Pipeline Parallel"] else []) ++
  (if a.speculative_model = some "[ngram]" then ["ngram Speculative Decoding"] else []) ++
  (if ¬ ext.is_cuda then [ext.device_type] else [])

/-- `EngineArgs._is_v1_supported_oracle` (lines 1370-1543) together with
`_raise_or_warning` / `_experimental_warning` / `_fallback_info`
(lines 1663-1685).  Returns the chosen compatibility verdict (`true` = V1
supported) and the emitted notices, or the `NotImplementedError` raised when
`VLLM_USE_V1=1` contradicts a tier-A rule. -/
def isV1SupportedOracle (a : EngineArgs) (mc : ModelConfig) (ext : ExtProbe) :
    Except Err (Bool × List Notice) :=
  match tierAMatch a mc ext with
  | some f =>
    if ext.v1_override = V1Override.forceOn then .error (.overrideConflict f)
    else .ok (false, [{ level := .warning, feature := f }])
  | none =>
    let bs := tierBMatches a mc ext
    if ext.v1_override = V1Override.forceOn then
      .ok (true, bs.map (fun f => { level := .warning, feature := f }))
    else
      match bs with
      | [] => .ok (true, [])
      | f :: _ => .ok (false, [{ level := .info, feature := f }])

/-- The chunked-prefill defaulting block of `_set_default_args_v0`
(lines 1550-1577): off for multimodal/MLA models; on for long-context models
(`max_model_len > 32768`) on a CUDA GPU without sliding window, speculative
decoding, LoRA, prompt adapter or a pooling runner; off otherwise (the
trailing `if ... is None: ... = False`). -/
def v0ChunkedArgs (a : EngineArgs) (mc : ModelConfig) (ext : ExtProbe) : EngineArgs :=
  if a.enable_chunked_prefill = none then
    if mc.is_multimodal_model ∨ mc.use_mla then
      { a with enable_chunked_prefill := some false }
    else if mc.max_model_len > 32768 ∧ ext.is_cuda ∧ mc.sliding_window = none
            ∧ a.speculative_model = none ∧ ¬ a.enable_lora
            ∧ ¬ a.enable_prompt_adapter ∧ mc.runner_type ≠ "pooling" then
      { a with enable_chunked_prefill := some true }
    else
      { a with enable_chunked_prefill := some false }
  else a

/-- Lines 1590-1595: prefix caching is forced off for multimodal models. -/
def v0PrefixCachingArgs (a : EngineArgs) (mc : ModelConfig) : EngineArgs :=
  if mc.is_multimodal_model ∧ a.enable_prefix_caching = some true then
    { a with enable_prefix_caching := some false }
  else a

/-- Lines 1597-1599: unset `max_num_seqs` defaults to 256 on V0. -/
def v0SeqsArgs (a : EngineArgs) : EngineArgs :=
  if a.max_num_seqs = none then { a with max_num_seqs := some 256 } else a

/-- `EngineArgs._set_default_args_v0` (lines 1545-1599).  Chunked prefill is
defaulted by `v0ChunkedArgs`; then
`if not chunked and long: warn; elif chunked and pooling: raise` — the elif
guard is reached exactly when chunked prefill is on, so on-with-pooling
raises; then prefix caching and `max_num_seqs` are defaulted.  Warnings are
logged but not modelled. -/
def setDefaultArgsV0 (a : EngineArgs) (mc : ModelConfig) (ext : ExtProbe) :
    Except Err EngineArgs :=
  if ((v0ChunkedArgs a mc ext).enable_chunked_prefill.getD false)
      ∧ mc.runner_type = "pooling" then
    .error .chunkedPrefillPooling
  else
    .ok (v0SeqsArgs (v0PrefixCachingArgs (v0ChunkedArgs a mc ext) mc))

/-- Does `hay` start with `sub`? (character-list helper). -/
def startsWithChars : List Char → List Char → Bool
  | _, [] => true
  | [], _ :: _ => false
  | h :: hs, n :: ns => h = n && startsWithChars hs ns

/-- Does `hay` contain `sub` as a contiguous substring? (Python `sub in hay`). -/
def hasSubChars : List Char → List Char → Bool
  | [], sub => sub.isEmpty
  | h :: hs, sub => startsWithChars (h :: hs) sub || hasSubChars hs sub

/-- The device-name class test of `_set_default_args_v1`:
`"h100" in device_name.lower()` — substring containment after ASCII
lowercasing. -/
def containsLower (s pat : String) : Bool :=
  hasSubChars (s.data.map Char.toLower) pat.data

/-- The V1 default for `max_num_batched_tokens` (lines 1608-1631): the lookup
table keyed by device-name class (H100/H200 get larger values) and usage
context; only applied when the field is unset and a usage context is given. -/
def v1BatchedTokensArgs (a : EngineArgs) (usage : Option UsageContext) (ext : ExtProbe) :
    EngineArgs :=
  match usage, a.max_num_batched_tokens with
  | some u, none =>
    let dflt : Int :=
      if containsLower ext.device_name "h100"
          ∨ containsLower ext.device_name "h200" then
        match u with
        | .llmClass => 16384
        | .openaiApiServer => 8192
      else
        match u with
        | .llmClass => 8192
        | .openaiApiServer => 2048
    { a with max_num_batched_tokens := some dflt }
  | _, _ => a

/-- Lines 1633-1638: unset `max_num_seqs` defaults to 1024 on V1. -/
def v1SeqsArgs (a : EngineArgs) : EngineArgs :=
  if a.max_num_seqs = none then { a with max_num_seqs := some 1024 } else a

/-- `EngineArgs._set_default_args_v1` (lines 1601-1638).  Chunked prefill is
forced on unconditionally; unset `max_num_batched_tokens` is chosen from the
device/usage table; unset `max_num_seqs` becomes 1024. -/
def setDefaultArgsV1 (a : EngineArgs) (usage : Option UsageContext) (ext : ExtProbe) :
    EngineArgs :=
  v1SeqsArgs (v1BatchedTokensArgs { a with enable_chunked_prefill := some true } usage ext)

/-- The multi-step compatibility block of `create_engine_config`
(lines 1252-1266): with `num_scheduler_steps > 1`, speculative decoding is
fatal, chunked prefill with pipeline parallelism is fatal, and on a CPU
platform the step count is silently clamped to 1 (with a warning). -/
def multiStepAdjust (a : EngineArgs) (spec : Option SpeculativeConfig) (ext : ExtProbe) :
    Except Err EngineArgs :=
  if a.num_scheduler_steps > 1 then
    if spec.isSome then .error .multiStepSpecDecode
    else if (a.enable_chunked_prefill.getD false) ∧ a.pipeline_parallel_size > 1 then
      .error .multiStepChunkedPP
    else if ext.is_cpu then .ok { a with num_scheduler_steps := 1 }
    else .ok a
  else .ok a

/-- `LoadConfig`: the values `create_load_config` passes to the constructor. -/
structure LoadConfig where
  load_format : String
  download_dir : Option String
  model_loader_extra_config : Option (List (String × String))
  ignore_patterns : Option String
  deriving DecidableEq, Inhabited

/-- `EngineArgs.create_load_config` (lines 1134-1156): bitsandbytes
quantization or a QLoRA adapter requires the bitsandbytes load format, and the
bitsandbytes load format or a QLoRA adapter requires bitsandbytes
quantization; a mismatch raises before the `LoadConfig` is produced. -/
def loadConfigOf (a : EngineArgs) : LoadConfig :=
  { load_format := a.load_format
    download_dir := a.download_dir
    model_loader_extra_config := a.model_loader_extra_config
    ignore_patterns := a.ignore_patterns }

def createLoadConfig (a : EngineArgs) : Except Err LoadConfig :=
  if (a.quantization = some "bitsandbytes" ∨ a.qlora_adapter_name_or_path ≠ none)
      ∧ a.load_format ≠ "bitsandbytes" then
    .error (.bnbLoadFormatMismatch a.load_format)
  else if (a.load_format = "bitsandbytes" ∨ a.qlora_adapter_name_or_path ≠ none)
      ∧ a.quantization ≠ some "bitsandbytes" then
    .error (.bnbQuantMismatch a.quantization)
  else
    .ok (loadConfigOf a)

/-- `ALLOWED_DETAILED_TRACE_MODULES` (line 35). -/
def allowedDetailedTraceModules : List String := ["model", "worker", "all"]

/-- Python `str.split(",")` over the character list: the (possibly empty)
parts between commas, with `acc` the reversed characters of the current
part.  The empty string yields `[""]`, like Python. -/
def splitCommasAux (acc : List Char) : List Char → List String
  | [] => [String.mk acc.reverse]
  | x :: xs =>
    if x = ',' then String.mk acc.reverse :: splitCommasAux [] xs
    else splitCommasAux (x :: acc) xs

/-- Lines 1333-1335: the detailed-trace module list — empty when
`collect_detailed_traces` is `None`, otherwise the comma-split of the string
(Python `str.split(",")`). -/
def detailedTraceModules : Option String → List String
  | none => []
  | some s => splitCommasAux [] s.data

/-- The validation loop of lines 1336-1340: the first entry outside
`ALLOWED_DETAILED_TRACE_MODULES` raises a `ValueError` naming it. -/
def checkTraceLoop : List String → Except Err Unit
  | [] => .ok ()
  | m :: rest =>
    if m ∈ allowedDetailedTraceModules then checkTraceLoop rest
    else .error (.invalidTraceModule m)

/-- `CacheConfig`: the values passed at lines 1197-1209. -/
structure CacheConfig where
  block_size : Option Int
  gpu_memory_utilization : ℚ
  swap_space : ℚ
  cache_dtype : String
  is_attention_free : Bool
  num_gpu_blocks_override : Option Int
  sliding_window : Option Int
  enable_prefix_caching : Option Bool
  cpu_offload_gb : ℚ
  calculate_kv_scales : Option Bool
  use_v1 : Bool
  deriving DecidableEq, Inhabited

/-- `ParallelConfig`: the values passed at lines 1210-1223 (the tokenizer-pool
triple is stored raw; `TokenizerPoolConfig.create_config` is external). -/
structure ParallelConfig where
  pipeline_parallel_size : Int
  tensor_parallel_size : Int
  max_parallel_loading_workers : Option Int
  disable_custom_all_reduce : Bool
  tokenizer_pool_size : Int
  tokenizer_pool_type : String
  tokenizer_pool_extra_config : Option String
  ray_workers_use_nsight : Bool
  distributed_executor_backend : Option String
  worker_cls : String
  deriving DecidableEq, Inhabited

/-- `SchedulerConfig`: the values passed at lines 1276-1295. -/
structure SchedulerConfig where
  runner_type : String
  max_num_batched_tokens : Option Int
  max_num_seqs : Option Int
  max_model_len : Int
  num_lookahead_slots : Int
  delay_factor : ℚ
  enable_chunked_prefill : Option Bool
  is_multimodal_model : Bool
  preemption_mode : Option String
  num_scheduler_steps : Int
  multi_step_stream_outputs : Bool
  send_delta_data : Bool
  policy : String
  scheduler_cls : String
  max_num_partial_prefills : Option Int
  max_long_partial_prefills : Option Int
  long_prefill_token_threshold : Option Int
  deriving DecidableEq, Inhabited

/-- `LoRAConfig`: the values passed at lines 1297-1306, after the external
constructor's defaulting of `max_cpu_loras`. -/
structure LoRAConfig where
  bias_enabled : Bool
  max_lora_rank : Int
  max_loras : Int
  fully_sharded_loras : Bool
  lora_extra_vocab_size : Int
  lora_dtype : String
  max_cpu_loras : Int
  deriving DecidableEq, Inhabited

/-- The `max_cpu_loras` argument computed at the call site (lines 1305-1306):
`self.max_cpu_loras if self.max_cpu_loras and self.max_cpu_loras > 0 else None`
(`None` and `0` are falsy, so unset or non-positive becomes `None`). -/
def maxCpuLorasArg : Option Int → Option Int
  | some n => if n > 0 then some n else none
  | none => none

/-- Modelled from the spec: the external `LoRAConfig` constructor
(in `vllm/config.py`, outside this module) defaults `max_cpu_loras` to
`max_loras` when the passed value is absent. -/
def mkLoRAConfig (bias_enabled : Bool) (max_lora_rank max_loras : Int)
    (fully_sharded_loras : Bool) (lora_extra_vocab_size : Int)
    (lora_dtype : String) (max_cpu_arg : Option Int) : LoRAConfig :=
  { bias_enabled := bias_enabled
    max_lora_rank := max_lora_rank
    max_loras := max_loras
    fully_sharded_loras := fully_sharded_loras
    lora_extra_vocab_size := lora_extra_vocab_size
    lora_dtype := lora_dtype
    max_cpu_loras := max_cpu_arg.getD max_loras }

/-- `PromptAdapterConfig`: the values passed at lines 1317-1320. -/
structure PromptAdapterConfig where
  max_prompt_adapters : Int
  max_prompt_adapter_token : Int
  deriving DecidableEq, Inhabited

/-- `DecodingConfig`: the values passed at lines 1322-1326. -/
structure DecodingConfig where
  guided_decoding_backend : String
  reasoning_backend : Option String
  deriving DecidableEq, Inhabited

/-- `ObservabilityConfig`: the values passed at lines 1341-1348. -/
structure ObservabilityConfig where
  show_hidden_metrics : Bool
  otlp_traces_endpoint : Option String
  collect_model_forward_time : Bool
  collect_model_execute_time : Bool
  deriving DecidableEq, Inhabited

/-- `DeviceConfig` (line 1165). -/
structure DeviceConfig where
  device : String
  deriving DecidableEq, Inhabited

/-- `VllmConfig` (lines 1350-1366): the immutable ResolvedConfiguration. -/
structure VllmConfig where
  model_config : ModelConfig
  cache_config : CacheConfig
  parallel_config : ParallelConfig
  scheduler_config : SchedulerConfig
  device_config : DeviceConfig
  lora_config : Option LoRAConfig
  speculative_config : Option SpeculativeConfig
  load_config : LoadConfig
  decoding_config : DecodingConfig
  observability_config : ObservabilityConfig
  prompt_adapter_config : Option PromptAdapterConfig
  kv_transfer_config : Option String
  additional_config : Option String
  use_v1 : Bool
  deriving DecidableEq, Inhabited

/-- `CacheConfig` construction, lines 1197-1209. -/
def mkCacheConfig (a : EngineArgs) (mc : ModelConfig) (use_v1 : Bool) : CacheConfig :=
  { block_size := a.block_size
    gpu_memory_utilization := a.gpu_memory_utilization
    swap_space := a.swap_space
    cache_dtype := a.kv_cache_dtype
    is_attention_free := mc.is_attention_free
    num_gpu_blocks_override := a.num_gpu_blocks_override
    sliding_window := mc.sliding_window
    enable_prefix_caching := a.enable_prefix_caching
    cpu_offload_gb := a.cpu_offload_gb
    calculate_kv_scales := a.calculate_kv_scales
    use_v1 := use_v1 }

/-- `ParallelConfig` construction, lines 1210-1223. -/
def mkParallelConfig (a : EngineArgs) : ParallelConfig :=
  { pipeline_parallel_size := a.pipeline_parallel_size
    tensor_parallel_size := a.tensor_parallel_size
    max_parallel_loading_workers := a.max_parallel_loading_workers
    disable_custom_all_reduce := a.disable_custom_all_reduce
    tokenizer_pool_size := a.tokenizer_pool_size
    tokenizer_pool_type := a.tokenizer_pool_type
    tokenizer_pool_extra_config := a.tokenizer_pool_extra_config
    ray_workers_use_nsight := a.ray_workers_use_nsight
    distributed_executor_backend := a.distributed_executor_backend
    worker_cls := a.worker_cls }

/-- Lines 1268-1274: the lookahead-slot resolution —
`max(num_lookahead_slots, num_scheduler_steps - 1)`, overridden by the
speculative-decoding-mandated value when a `SpeculativeConfig` is present. -/
def resolvedLookaheadSlots (a : EngineArgs) (spec : Option SpeculativeConfig) : Int :=
  match spec with
  | none => max a.num_lookahead_slots (a.num_scheduler_steps - 1)
  | some sc => sc.num_lookahead_slots

/-- `SchedulerConfig` construction, lines 1276-1295 (reads the step count as
possibly clamped by the multi-step block just before it). -/
def mkSchedulerConfig (a : EngineArgs) (mc : ModelConfig) (spec : Option SpeculativeConfig)
    (ext : ExtProbe) : SchedulerConfig :=
  { runner_type := mc.runner_type
    max_num_batched_tokens := a.max_num_batched_tokens
    max_num_seqs := a.max_num_seqs
    max_model_len := mc.max_model_len
    num_lookahead_slots := resolvedLookaheadSlots a spec
    delay_factor := a.scheduler_delay_factor
    enable_chunked_prefill := a.enable_chunked_prefill
    is_multimodal_model := mc.is_multimodal_model
    preemption_mode := a.preemption_mode
    num_scheduler_steps := a.num_scheduler_steps
    multi_step_stream_outputs := a.multi_step_stream_outputs
    send_delta_data := ext.use_ray_spmd_worker && ext.parallel_use_ray
    policy := a.scheduling_policy
    scheduler_cls := a.scheduler_cls
    max_num_partial_prefills := a.max_num_partial_prefills
    max_long_partial_prefills := a.max_long_partial_prefills
    long_prefill_token_threshold := a.long_prefill_token_threshold }

/-- `LoRAConfig` construction, lines 1297-1306: present exactly when
`enable_lora` is set. -/
def loraConfigOf (a : EngineArgs) : Option LoRAConfig :=
  if a.enable_lora then
    some (mkLoRAConfig a.enable_lora_bias a.max_lora_rank a.max_loras a.fully_sharded_loras a.lora_extra_vocab_size a.lora_dtype (maxCpuLorasArg a.max_cpu_loras))
  else none

/-- Lines 1308-1313: a set, non-empty QLoRA adapter path is patched into
`model_loader_extra_config`. -/
def qloraPatch (a : EngineArgs) : EngineArgs :=
  if a.qlora_adapter_name_or_path ≠ none ∧ a.qlora_adapter_name_or_path ≠ some "" then
    let patched := (a.model_loader_extra_config.getD []) ++ [("qlora_adapter_name_or_path", a.qlora_adapter_name_or_path.getD "")]
    { a with model_loader_extra_config := some patched }
  else a

/-- `PromptAdapterConfig` construction, lines 1317-1320: present exactly when
`enable_prompt_adapter` is set. -/
def promptAdapterOf (a : EngineArgs) : Option PromptAdapterConfig :=
  if a.enable_prompt_adapter then
    some { max_prompt_adapters := a.max_prompt_adapters
           max_prompt_adapter_token := a.max_prompt_adapter_token }
  else none

/-- `DecodingConfig` construction, lines 1322-1326. -/
def mkDecodingConfig (a : EngineArgs) : DecodingConfig :=
  { guided_decoding_backend := a.guided_decoding_backend
    reasoning_backend :=
      if a.enable_reasoning = some true then a.reasoning_backend_arg else none }

/-- `ObservabilityConfig` construction, lines 1328-1348. -/
def mkObservabilityConfig (a : EngineArgs) (ext : ExtProbe) : ObservabilityConfig :=
  { show_hidden_metrics :=
      if a.show_hidden_metrics_for_version ≠ none then ext.prev_minor_ok else false
    otlp_traces_endpoint := a.otlp_traces_endpoint
    collect_model_forward_time :=
      decide ("model" ∈ detailedTraceModules a.collect_detailed_traces
        ∨ "all" ∈ detailedTraceModules a.collect_detailed_traces)
    collect_model_execute_time :=
      decide ("worker" ∈ detailedTraceModules a.collect_detailed_traces
        ∨ "all" ∈ detailedTraceModules a.collect_detailed_traces) }

/-- The sub-configurations already constructed when the multi-step check of
line 1254 runs (source order: device 1165, model 1166, cache 1197, parallel
1210, speculative 1225). -/
def builtBeforeMultiStep (ext : ExtProbe) : List String :=
  ["DeviceConfig", "ModelConfig", "CacheConfig", "ParallelConfig"]
    ++ (if ext.specConfig.isSome then ["SpeculativeConfig"] else [])

/-- The sub-configurations already constructed when `create_load_config` runs
(line 1315): additionally the scheduler (1276) and the optional LoRA config
(1297). -/
def builtBeforeLoad (a3 : EngineArgs) (ext : ExtProbe) : List String :=
  builtBeforeMultiStep ext ++ ["SchedulerConfig"]
    ++ (if a3.enable_lora then ["LoRAConfig"] else [])

/-- The sub-configurations already constructed when the detailed-trace check
of line 1336 runs: additionally load (1315), the optional prompt adapter
(1317) and decoding (1322). -/
def builtBeforeTrace (a3 : EngineArgs) (ext : ExtProbe) : List String :=
  builtBeforeLoad a3 ext ++ ["LoadConfig"]
    ++ (if a3.enable_prompt_adapter then ["PromptAdapterConfig"] else [])
    ++ ["DecodingConfig"]

/-- The sub-configuration builders of `create_engine_config` after the
defaulting stage (lines 1197-1368): cache, parallel, speculative lookup,
multi-step checks, lookahead resolution, scheduler, LoRA, qlora extra-config
patch, load, prompt adapter, decoding, trace validation, observability, final
assembly.  The builders themselves are pure record constructions; the
`built` lists attached to each failure record the source's sequential
construction order. -/
def buildConfigs (a2 : EngineArgs) (mc : ModelConfig) (device_config : DeviceConfig)
    (use_v1 : Bool) (ext : ExtProbe) : Except Failure VllmConfig :=
  match multiStepAdjust a2 ext.specConfig ext with
  | .error e => .error { err := e, built := builtBeforeMultiStep ext }
  | .ok a3 =>
    match createLoadConfig (qloraPatch a3) with
    | .error e => .error { err := e, built := builtBeforeLoad a3 ext }
    | .ok load_config =>
      match checkTraceLoop (detailedTraceModules (qloraPatch a3).collect_detailed_traces) with
      | .error e => .error { err := e, built := builtBeforeTrace a3 ext }
      | .ok _ =>
        .ok { model_config := mc
              cache_config := mkCacheConfig a2 mc use_v1
              parallel_config := mkParallelConfig a2
              scheduler_config := mkSchedulerConfig a3 mc ext.specConfig ext
              device_config := device_config
              lora_config := loraConfigOf a3
              speculative_config := ext.specConfig
              load_config := load_config
              decoding_config := mkDecodingConfig (qloraPatch a3)
              observability_config := mkObservabilityConfig (qloraPatch a3) ext
              prompt_adapter_config := promptAdapterOf (qloraPatch a3)
              kv_transfer_config := (qloraPatch a3).kv_transfer_config
              additional_config := (qloraPatch a3).additional_config
              use_v1 := use_v1 }

/-- Lines 1173-1180: the chosen engine version — V1 exactly when the oracle
approves and either `VLLM_USE_V1=1` or (unset) the opt-in-by-default policy
is active. -/
def useV1Flag (ext : ExtProbe) (oracleOk : Bool) : Bool :=
  oracleOk && (ext.v1_override.isForceOn || (!ext.v1_override.isSet && ext.v1_by_default))

/-- `EngineArgs.create_engine_config` (lines 1158-1368): device and model
configs, the V0/V1 oracle with the `VLLM_USE_V1` policy and the
line-1188 assertion, version-specific defaulting (lines 1191-1195), then the
sub-configuration builders. -/
def createEngineConfig (a0 : EngineArgs) (ext : ExtProbe) (usage : Option UsageContext) :
    Except Failure VllmConfig :=
  match isV1SupportedOracle (createModelConfig a0 ext).1 (createModelConfig a0 ext).2 ext with
  | .error e => .error { err := e, built := ["DeviceConfig", "ModelConfig"] }
  | .ok res =>
    if ext.v1_override.isSet && (useV1Flag ext res.1 != ext.v1_override.isForceOn) then
      .error { err := .assertViolation, built := ["DeviceConfig", "ModelConfig"] }
    else
      match (if useV1Flag ext res.1 then
               .ok (setDefaultArgsV1 (createModelConfig a0 ext).1 usage ext)
             else
               setDefaultArgsV0 (createModelConfig a0 ext).1 (createModelConfig a0 ext).2 ext :
             Except Err EngineArgs) with
      | .error e => .error { err := e, built := ["DeviceConfig", "ModelConfig"] }
      | .ok a2 =>
        buildConfigs a2 (createModelConfig a0 ext).2 { device := a0.device }
          (useV1Flag ext res.1) ext

/-- One full resolution: the raw option set is post-initialized at
construction (`__post_init__`) and then resolved by `create_engine_config`. -/
def resolveEngineArgs (a : EngineArgs) (ext : ExtProbe) (usage : Option UsageContext) :
    Except Failure VllmConfig :=
  createEngineConfig (postInit a) ext usage

/-! ### Preservation lemmas

The mutation stages (`postInit`, `createModelConfig`, the defaulting engines,
`multiStepAdjust`, `qloraPatch`) each touch only a few fields; the lemmas
below record the fields the later claims rely on being untouched. -/

/-- The argument fields that no stage between construction and the
sub-configuration builders may change (each stage below is proved to
preserve them). -/
def preservesCore (a b : EngineArgs) : Prop :=
  b.num_lookahead_slots = a.num_lookahead_slots ∧
  b.num_scheduler_steps = a.num_scheduler_steps ∧
  b.enable_lora = a.enable_lora ∧
  b.enable_lora_bias = a.enable_lora_bias ∧
  b.max_lora_rank = a.max_lora_rank ∧
  b.max_loras = a.max_loras ∧
  b.fully_sharded_loras = a.fully_sharded_loras ∧
  b.lora_extra_vocab_size = a.lora_extra_vocab_size ∧
  b.lora_dtype = a.lora_dtype ∧
  b.max_cpu_loras = a.max_cpu_loras ∧
  b.collect_detailed_traces = a.collect_detailed_traces ∧
  b.scheduling_policy = a.scheduling_policy

theorem preservesCore_refl (a : EngineArgs) : preservesCore a a := by
  unfold preservesCore; repeat' constructor

theorem preservesCore_trans {a b c : EngineArgs}
    (h1 : preservesCore a b) (h2 : preservesCore b c) : preservesCore a c := by
  unfold preservesCore at *
  obtain ⟨e1, e2, e3, e4, e5, e6, e7, e8, e9, e10, e11, e12⟩ := h1
  obtain ⟨f1, f2, f3, f4, f5, f6, f7, f8, f9, f10, f11, f12⟩ := h2
  exact ⟨f1.trans e1, f2.trans e2, f3.trans e3, f4.trans e4, f5.trans e5,
    f6.trans e6, f7.trans e7, f8.trans e8, f9.trans e9, f10.trans e10,
    f11.trans e11, f12.trans e12⟩

theorem loraConfigOf_congr {a b : EngineArgs} (h : preservesCore a b) :
    loraConfigOf b = loraConfigOf a := by
  obtain ⟨-, -, h3, h4, h5, h6, h7, h8, h9, h10, -, -⟩ := h
  unfold loraConfigOf
  rw [h3, h4, h5, h6, h7, h8, h9, h10]

theorem postInit_core (a : EngineArgs) :
    preservesCore a (postInit a) ∧
    (postInit a).enable_chunked_prefill = a.enable_chunked_prefill ∧
    (postInit a).model = a.model := by
  unfold postInit preservesCore; split <;> simp

/-- `__post_init__` on an unset (`None` or empty) tokenizer sets it to the
model string. -/
theorem postInit_tokenizer_unset {a : EngineArgs}
    (h : a.tokenizer = none ∨ a.tokenizer = some "") :
    (postInit a).tokenizer = some a.model := by
  unfold postInit; split
  · simp
  · rename_i hc; exact absurd h hc

theorem createModelConfig_core (a : EngineArgs) (ext : ExtProbe) :
    preservesCore a (createModelConfig a ext).1 ∧
    (createModelConfig a ext).1.enable_chunked_prefill = a.enable_chunked_prefill ∧
    (createModelConfig a ext).1.tokenizer = a.tokenizer ∧
    (createModelConfig a ext).2.tokenizer = a.tokenizer ∧
    (createModelConfig a ext).2.task = ext.caps.task ∧
    (createModelConfig a ext).2.runner_type = ext.caps.runner_type := by
  unfold createModelConfig preservesCore
  dsimp only
  split <;> split <;> simp

theorem v0ChunkedArgs_core (a : EngineArgs) (mc : ModelConfig) (ext : ExtProbe) :
    preservesCore a (v0ChunkedArgs a mc ext) := by
  unfold v0ChunkedArgs preservesCore
  repeat' split
  all_goals simp

theorem v0PrefixCachingArgs_core (a : EngineArgs) (mc : ModelConfig) :
    preservesCore a (v0PrefixCachingArgs a mc) ∧
    (v0PrefixCachingArgs a mc).enable_chunked_prefill = a.enable_chunked_prefill := by
  unfold v0PrefixCachingArgs preservesCore
  split <;> simp

theorem v0SeqsArgs_core (a : EngineArgs) :
    preservesCore a (v0SeqsArgs a) ∧
    (v0SeqsArgs a).enable_chunked_prefill = a.enable_chunked_prefill := by
  unfold v0SeqsArgs preservesCore
  split <;> simp

theorem setDefaultArgsV0_ok_core {a : EngineArgs} {mc : ModelConfig} {ext : ExtProbe}
    {b : EngineArgs} (h : setDefaultArgsV0 a mc ext = .ok b) :
    preservesCore a b := by
  unfold setDefaultArgsV0 at h
  split at h
  · simp at h
  · cases h
    exact preservesCore_trans
      (preservesCore_trans (v0ChunkedArgs_core a mc ext)
        (v0PrefixCachingArgs_core (v0ChunkedArgs a mc ext) mc).1)
      (v0SeqsArgs_core (v0PrefixCachingArgs (v0ChunkedArgs a mc ext) mc)).1

/-- The only error `_set_default_args_v0` raises is the chunked-prefill/pooling
validation error. -/
theorem setDefaultArgsV0_error {a : EngineArgs} {mc : ModelConfig} {ext : ExtProbe}
    {e : Err} (h : setDefaultArgsV0 a mc ext = .error e) :
    e = .chunkedPrefillPooling := by
  unfold setDefaultArgsV0 at h
  split at h
  · exact (Except.error.injEq _ _).mp h.symm
  · simp at h

/-- Explicitly-requested chunked prefill together with a pooling runner makes
`_set_default_args_v0` raise the validation error. -/
theorem setDefaultArgsV0_pooling {a : EngineArgs} {mc : ModelConfig} {ext : ExtProbe}
    (hc : a.enable_chunked_prefill = some true) (hp : mc.runner_type = "pooling") :
    setDefaultArgsV0 a mc ext = .error .chunkedPrefillPooling := by
  unfold setDefaultArgsV0 v0ChunkedArgs
  rw [hc]
  simp [hp, hc]

theorem setDefaultArgsV1_core (a : EngineArgs) (usage : Option UsageContext)
    (ext : ExtProbe) :
    preservesCore a (setDefaultArgsV1 a usage ext) ∧
    (setDefaultArgsV1 a usage ext).enable_chunked_prefill = some true := by
  unfold setDefaultArgsV1 v1SeqsArgs v1BatchedTokensArgs preservesCore
  repeat' split
  all_goals simp

theorem qloraPatch_fields (a : EngineArgs) :
    (qloraPatch a).collect_detailed_traces = a.collect_detailed_traces ∧
    (qloraPatch a).quantization = a.quantization ∧
    (qloraPatch a).load_format = a.load_format ∧
    (qloraPatch a).qlora_adapter_name_or_path = a.qlora_adapter_name_or_path := by
  unfold qloraPatch
  split <;> simp

theorem multiStepAdjust_ok {a : EngineArgs} {spec : Option SpeculativeConfig}
    {ext : ExtProbe} {b : EngineArgs} (h : multiStepAdjust a spec ext = .ok b) :
    b.num_lookahead_slots = a.num_lookahead_slots ∧
    b.enable_chunked_prefill = a.enable_chunked_prefill ∧
    b.enable_lora = a.enable_lora ∧
    b.enable_lora_bias = a.enable_lora_bias ∧
    b.max_lora_rank = a.max_lora_rank ∧
    b.max_loras = a.max_loras ∧
    b.fully_sharded_loras = a.fully_sharded_loras ∧
    b.lora_extra_vocab_size = a.lora_extra_vocab_size ∧
    b.lora_dtype = a.lora_dtype ∧
    b.max_cpu_loras = a.max_cpu_loras ∧
    b.collect_detailed_traces = a.collect_detailed_traces ∧
    (ext.is_cpu = false → b.num_scheduler_steps = a.num_scheduler_steps) := by
  unfold multiStepAdjust at h
  split at h
  · split at h
    · simp at h
    · split at h
      · simp at h
      · split at h <;> (cases h; simp_all)
  · cases h; simp_all

/-- With more than one scheduler step and a present speculative config, the
multi-step block raises the speculative/multi-step conflict. -/
theorem multiStepAdjust_spec_error {a : EngineArgs} {spec : Option SpeculativeConfig}
    {ext : ExtProbe} (hs : a.num_scheduler_steps > 1) (hp : spec.isSome = true) :
    multiStepAdjust a spec ext = .error .multiStepSpecDecode := by
  unfold multiStepAdjust
  simp [hs, hp]

/-! ### Inversion lemmas for the resolution pipeline -/

theorem buildConfigs_ok {a2 : EngineArgs} {mc : ModelConfig} {dc : DeviceConfig}
    {use_v1 : Bool} {ext : ExtProbe} {cfg : VllmConfig}
    (h : buildConfigs a2 mc dc use_v1 ext = .ok cfg) :
    cfg.speculative_config = ext.specConfig ∧
    cfg.use_v1 = use_v1 ∧
    cfg.model_config = mc ∧
    cfg.scheduler_config.enable_chunked_prefill = a2.enable_chunked_prefill ∧
    cfg.scheduler_config.num_lookahead_slots =
      (match ext.specConfig with
       | none => max a2.num_lookahead_slots (cfg.scheduler_config.num_scheduler_steps - 1)
       | some sc => sc.num_lookahead_slots) ∧
    (ext.is_cpu = false → cfg.scheduler_config.num_scheduler_steps = a2.num_scheduler_steps) ∧
    cfg.lora_config = (if a2.enable_lora then some (mkLoRAConfig a2.enable_lora_bias a2.max_lora_rank a2.max_loras a2.fully_sharded_loras a2.lora_extra_vocab_size a2.lora_dtype (maxCpuLorasArg a2.max_cpu_loras)) else none) ∧
    checkTraceLoop (detailedTraceModules a2.collect_detailed_traces) = .ok () := by
  unfold buildConfigs at h
  split at h
  · simp at h
  · rename_i a3 hms
    obtain ⟨p1, p2, p3, p4, p5, p6, p7, p8, p9, p10, p11, p12⟩ := multiStepAdjust_ok hms
    split at h
    · simp at h
    · split at h
      · simp at h
      · rename_i u htr
        cases h
        refine ⟨rfl, rfl, rfl, p2, ?_, ?_, ?_, ?_⟩
        · cases hspec : ext.specConfig with
          | none =>
            simp only [mkSchedulerConfig, resolvedLookaheadSlots, hspec]
            rw [p1]
          | some sc =>
            simp only [mkSchedulerConfig, resolvedLookaheadSlots, hspec]
        · intro hcpu
          simp only [mkSchedulerConfig]
          exact p12 hcpu
        · simp only [loraConfigOf]
          rw [p3, p4, p5, p6, p7, p8, p9, p10]
        · rw [(qloraPatch_fields a3).1, p11] at htr
          exact htr

theorem createEngineConfig_ok {a0 : EngineArgs} {ext : ExtProbe}
    {usage : Option UsageContext} {cfg : VllmConfig}
    (h : createEngineConfig a0 ext usage = .ok cfg) :
    ∃ a2, preservesCore a0 a2 ∧
      (cfg.use_v1 = true → a2.enable_chunked_prefill = some true) ∧
      buildConfigs a2 (createModelConfig a0 ext).2 { device := a0.device }
        cfg.use_v1 ext = .ok cfg := by
  unfold createEngineConfig at h
  split at h
  · simp at h
  · rename_i res hres
    split at h
    · simp at h
    · split at h
      · simp at h
      · rename_i a2 hdef
        have hcmc := (createModelConfig_core a0 ext).1
        have huse : cfg.use_v1 = useV1Flag ext res.1 := (buildConfigs_ok h).2.1
        refine ⟨a2, ?_, ?_, ?_⟩
        · by_cases hv : useV1Flag ext res.1 = true
          · rw [hv] at hdef
            simp only [if_true] at hdef
            cases hdef
            exact preservesCore_trans hcmc
              (setDefaultArgsV1_core (createModelConfig a0 ext).1 usage ext).1
          · rw [Bool.not_eq_true] at hv
            rw [hv] at hdef
            simp only [Bool.false_eq_true, if_false] at hdef
            exact preservesCore_trans hcmc (setDefaultArgsV0_ok_core hdef)
        · intro hv1
          rw [huse] at hv1
          rw [hv1] at hdef
          simp only [if_true] at hdef
          cases hdef
          exact (setDefaultArgsV1_core (createModelConfig a0 ext).1 usage ext).2
        · rw [huse]
          exact h

/-- Master inversion: every successful resolution satisfies the
cross-cutting facts the invariant claims refer to. -/
theorem resolve_ok_facts {a : EngineArgs} {ext : ExtProbe}
    {usage : Option UsageContext} {cfg : VllmConfig}
    (h : resolveEngineArgs a ext usage = .ok cfg) :
    cfg.model_config.tokenizer = (postInit a).tokenizer ∧
    cfg.speculative_config = ext.specConfig ∧
    cfg.scheduler_config.num_lookahead_slots =
      (match ext.specConfig with
       | none => max a.num_lookahead_slots (cfg.scheduler_config.num_scheduler_steps - 1)
       | some sc => sc.num_lookahead_slots) ∧
    (ext.is_cpu = false → cfg.scheduler_config.num_scheduler_steps = a.num_scheduler_steps) ∧
    (cfg.use_v1 = true → cfg.scheduler_config.enable_chunked_prefill = some true) ∧
    cfg.lora_config = loraConfigOf a ∧
    checkTraceLoop (detailedTraceModules a.collect_detailed_traces) = .ok () := by
  unfold resolveEngineArgs at h
  obtain ⟨a2, hcore, hchunk, hbuild⟩ := createEngineConfig_ok h
  obtain ⟨b1, b2, b3, b4, b5, b6, b7, b8⟩ := buildConfigs_ok hbuild
  have hpost := (postInit_core a).1
  have hfull : preservesCore a a2 := preservesCore_trans hpost hcore
  obtain ⟨c1, c2, c3, c4, c5, c6, c7, c8, c9, c10, c11, c12⟩ :=
    preservesCore_trans hpost hcore
  refine ⟨?_, b1, ?_, ?_, ?_, ?_, ?_⟩
  · rw [b3]
    exact (createModelConfig_core (postInit a) ext).2.2.2.1
  · rw [b5, c1]
  · intro hcpu
    rw [b6 hcpu, c2]
  · intro hv1
    rw [b4, hchunk hv1]
  · rw [b7, ← loraConfigOf_congr hfull]
    unfold loraConfigOf
    rfl
  · rw [← c11]
    exact b8

/-! ### Oracle lemmas -/

/-- A vanishing tier-A match means every row's predicate is false. -/
theorem tierAMatch_none_iff {a : EngineArgs} {mc : ModelConfig} {ext : ExtProbe} :
    tierAMatch a mc ext = none ↔ ∀ r ∈ tierARules a mc ext, r.1 = false := by
  unfold tierAMatch
  rw [Option.map_eq_none', List.find?_eq_none]
  simp

/-- When no tier-A rule matches, the fields the later claims inspect are at
their defaults: the task is `"generate"`, the step count is 1 and the
scheduling policy is `"fcfs"`. -/
theorem tierA_none_facts {a : EngineArgs} {mc : ModelConfig} {ext : ExtProbe}
    (h : tierAMatch a mc ext = none) :
    mc.task = "generate" ∧ a.num_scheduler_steps = 1 ∧ a.scheduling_policy = "fcfs" := by
  have hall := tierAMatch_none_iff.mp h
  simp only [tierARules, List.forall_mem_cons, List.forall_mem_nil] at hall
  refine ⟨?_, ?_, ?_⟩
  · have := hall.2.2.2.2.2.2.2.2.2.2.2.2.2.1
    simpa using this
  · have := hall.2.2.2.2.2.2.1
    simpa using this
  · have := hall.2.2.2.1
    simpa using this

/-- Any value other than the default `"fcfs"` for the scheduling policy makes
some tier-A rule match (the policy rule, or an earlier one). -/
theorem tierAMatch_isSome_of_policy {a : EngineArgs} {mc : ModelConfig} {ext : ExtProbe}
    (h : a.scheduling_policy ≠ "fcfs") : (tierAMatch a mc ext).isSome = true := by
  rw [Option.isSome_iff_ne_none]
  intro hn
  exact h (tierA_none_facts hn).2.2

/-- Any value other than the default `1` for `num_scheduler_steps` makes some
tier-A rule match. -/
theorem tierAMatch_isSome_of_steps {a : EngineArgs} {mc : ModelConfig} {ext : ExtProbe}
    (h : a.num_scheduler_steps ≠ 1) : (tierAMatch a mc ext).isSome = true := by
  rw [Option.isSome_iff_ne_none]
  intro hn
  exact h (tierA_none_facts hn).2.1

/-- When no tier-A rule matches, the task is `"generate"`. -/
theorem tierAMatch_none_task {a : EngineArgs} {mc : ModelConfig} {ext : ExtProbe}
    (h : tierAMatch a mc ext = none) : mc.task = "generate" := (tierA_none_facts h).1

/-- A tier-A match without a forced-NextGen override: the oracle selects V0
and emits exactly one warning notice naming the feature. -/
theorem oracle_tierA_unforced {a : EngineArgs} {mc : ModelConfig} {ext : ExtProbe}
    {f : String} (hA : tierAMatch a mc ext = some f)
    (hov : ext.v1_override ≠ .forceOn) :
    isV1SupportedOracle a mc ext =
      .ok (false, [{ level := .warning, feature := f }]) := by
  unfold isV1SupportedOracle
  rw [hA]
  simp [hov]

/-- A tier-A match under a forced-NextGen override: the oracle raises. -/
theorem oracle_tierA_forced {a : EngineArgs} {mc : ModelConfig} {ext : ExtProbe}
    {f : String} (hA : tierAMatch a mc ext = some f)
    (hov : ext.v1_override = .forceOn) :
    isV1SupportedOracle a mc ext = .error (.overrideConflict f) := by
  unfold isV1SupportedOracle
  rw [hA]
  simp [hov]

/-! ### Error-path lemmas for `createEngineConfig` -/

theorem createEngineConfig_oracle_error {a0 : EngineArgs} {ext : ExtProbe}
    {usage : Option UsageContext} {e : Err}
    (h : isV1SupportedOracle (createModelConfig a0 ext).1 (createModelConfig a0 ext).2 ext
      = .error e) :
    createEngineConfig a0 ext usage =
      .error { err := e, built := ["DeviceConfig", "ModelConfig"] } := by
  unfold createEngineConfig
  rw [h]

theorem useV1Flag_false (ext : ExtProbe) : useV1Flag ext false = false := by
  unfold useV1Flag
  simp

theorem isForceOn_false {ext : ExtProbe} (hov : ext.v1_override ≠ .forceOn) :
    ext.v1_override.isForceOn = false := by
  cases hv : ext.v1_override
  · exact absurd hv hov
  · rfl
  · rfl

/-- With an unforced override and a V0 oracle verdict, resolution runs the V0
defaulting engine; its error aborts resolution right after device and model
configs. -/
theorem createEngineConfig_v0_error {a0 : EngineArgs} {ext : ExtProbe}
    {usage : Option UsageContext} {e : Err} {ns : List Notice}
    (ho : isV1SupportedOracle (createModelConfig a0 ext).1 (createModelConfig a0 ext).2 ext
      = .ok (false, ns))
    (hov : ext.v1_override ≠ .forceOn)
    (hd : setDefaultArgsV0 (createModelConfig a0 ext).1 (createModelConfig a0 ext).2 ext
      = .error e) :
    createEngineConfig a0 ext usage =
      .error { err := e, built := ["DeviceConfig", "ModelConfig"] } := by
  unfold createEngineConfig
  rw [ho]
  simp only [useV1Flag_false, isForceOn_false hov, bne_self_eq_false,
    Bool.and_false, Bool.false_eq_true, if_false]
  rw [hd]

/-- With an unforced override and a V0 oracle verdict, a successful V0
defaulting hands over to the sub-configuration builders. -/
theorem createEngineConfig_v0_ok {a0 : EngineArgs} {ext : ExtProbe}
    {usage : Option UsageContext} {b : EngineArgs} {ns : List Notice}
    (ho : isV1SupportedOracle (createModelConfig a0 ext).1 (createModelConfig a0 ext).2 ext
      = .ok (false, ns))
    (hov : ext.v1_override ≠ .forceOn)
    (hd : setDefaultArgsV0 (createModelConfig a0 ext).1 (createModelConfig a0 ext).2 ext
      = .ok b) :
    createEngineConfig a0 ext usage =
      buildConfigs b (createModelConfig a0 ext).2 { device := a0.device } false ext := by
  unfold createEngineConfig
  rw [ho]
  simp only [useV1Flag_false, isForceOn_false hov, bne_self_eq_false,
    Bool.and_false, Bool.false_eq_true, if_false]
  rw [hd]

/-! ### Concrete inputs for witnesses and counterexamples -/

/-- Default probe: CUDA A100, capability 8, override unset, opt-in default
off, generate task, no speculative config. -/
def extPlain : ExtProbe := {}

/-- Probe with `VLLM_USE_V1=1`. -/
def extForceOn : ExtProbe := { v1_override := .forceOn }

/-- Probe whose `maybe_create_spec_config` returned a config mandating 5
lookahead slots. -/
def extSpec5 : ExtProbe := { specConfig := some { num_lookahead_slots := 5 } }

/-- Probe for a pooling-style model (embedding task, pooling runner). -/
def extPooling : ExtProbe := { caps := { task := "embed", runner_type := "pooling" } }

/-- Pooling-style model together with `VLLM_USE_V1=1`. -/
def extPoolingForce : ExtProbe :=
  { caps := { task := "embed", runner_type := "pooling" }, v1_override := .forceOn }

def argsQlora : EngineArgs := { qlora_adapter_name_or_path := some "qlora-adapter" }
def argsSteps4 : EngineArgs := { num_scheduler_steps := 4 }
def argsSpecModel : EngineArgs := { speculative_model := some "draft-model" }
def argsSteps4Spec : EngineArgs :=
  { num_scheduler_steps := 4, speculative_model := some "draft-model" }
def argsSteps2Spec : EngineArgs :=
  { num_scheduler_steps := 2, speculative_model := some "draft-model" }
def argsChunkedTrue : EngineArgs := { enable_chunked_prefill := some true }
def argsPolicy : EngineArgs := { scheduling_policy := "priority" }
def argsTraceBogus : EngineArgs := { collect_detailed_traces := some "model,bogus" }
def argsLora : EngineArgs := { enable_lora := true, max_loras := 4 }

/-! ### Claims -/

/-- Claim C1 (amended): the load-config builder fails with a
configuration-conflict error whenever quantization "bitsandbytes" is requested
together with a load format other than "bitsandbytes", or load format
"bitsandbytes" is requested together with a quantization other than
"bitsandbytes"; it succeeds (on this check) when both are "bitsandbytes", or
when both are absent and no QLoRA adapter path is set (a QLoRA adapter path
alone also demands the bitsandbytes pairing).  No partial result is produced
on failure. -/
theorem bnb_load_consistency (a : EngineArgs) :
    (((a.quantization = some "bitsandbytes" ∧ a.load_format ≠ "bitsandbytes") ∨
      (a.load_format = "bitsandbytes" ∧ a.quantization ≠ some "bitsandbytes")) →
      ∃ e, createLoadConfig a = .error e ∧ e.isConfigurationConflict = true) ∧
    (((a.quantization = some "bitsandbytes" ∧ a.load_format = "bitsandbytes") ∨
      (a.quantization = none ∧ a.load_format = "auto"
        ∧ a.qlora_adapter_name_or_path = none)) →
      ∃ lc, createLoadConfig a = .ok lc) := by
  constructor
  · rintro (⟨h1, h2⟩ | ⟨h1, h2⟩)
    · refine ⟨.bnbLoadFormatMismatch a.load_format, ?_, rfl⟩
      unfold createLoadConfig
      rw [if_pos ⟨Or.inl h1, h2⟩]
    · refine ⟨.bnbQuantMismatch a.quantization, ?_, rfl⟩
      unfold createLoadConfig
      rw [if_neg (fun hc => hc.2 h1), if_pos ⟨Or.inl h1, h2⟩]
  · rintro (⟨h1, h2⟩ | ⟨h1, h2, h3⟩)
    · refine ⟨loadConfigOf a, ?_⟩
      unfold createLoadConfig
      rw [if_neg (fun hc => hc.2 h2), if_neg (fun hc => hc.2 h1)]
    · refine ⟨loadConfigOf a, ?_⟩
      unfold createLoadConfig
      have hA : ¬ ((a.quantization = some "bitsandbytes"
          ∨ a.qlora_adapter_name_or_path ≠ none) ∧ a.load_format ≠ "bitsandbytes") := by
        rintro ⟨hq | hq, -⟩
        · rw [h1] at hq; cases hq
        · exact hq h3
      have hB : ¬ ((a.load_format = "bitsandbytes"
          ∨ a.qlora_adapter_name_or_path ≠ none) ∧ a.quantization ≠ some "bitsandbytes") := by
        rintro ⟨hq | hq, -⟩
        · rw [h2] at hq; exact absurd hq (by decide)
        · exact hq h3
      rw [if_neg hA, if_neg hB]

/-- Claim C1 counterexample: with only a QLoRA adapter path set, quantization
and load format are both absent, yet the load-config check fails — the claim's
"succeeds when both are absent" is false as stated. -/
theorem bnb_load_consistency_counterexample :
    argsQlora.quantization = none ∧ argsQlora.load_format = "auto" ∧
    (createLoadConfig argsQlora).isOk = false := ⟨rfl, rfl, rfl⟩

theorem bnb_load_consistency_witness :
    (∃ e, createLoadConfig { quantization := some "bitsandbytes" } = .error e
      ∧ e.isConfigurationConflict = true) ∧
    (∃ lc, createLoadConfig
      { quantization := some "bitsandbytes", load_format := "bitsandbytes" } = .ok lc) := by
  constructor
  · exact (bnb_load_consistency { quantization := some "bitsandbytes" }).1
      (Or.inl ⟨rfl, by decide⟩)
  · exact (bnb_load_consistency
      { quantization := some "bitsandbytes", load_format := "bitsandbytes" }).2
      (Or.inl ⟨rfl, rfl⟩)

/-- Claim C2 (amended): for every successful resolution, the lookahead-slot
count placed in the scheduler configuration equals the
speculative-decoding-mandated value when a SpeculativeConfig is present, and
otherwise equals `max(explicit_lookahead_slots, s - 1)` where `s` is the
scheduler-step count placed in the same configuration (equal to the input
step count except for the CPU clamp).  The spec's second example needs
`scheduler_steps = 1`: steps > 1 with a speculative config never resolves. -/
theorem lookahead_resolution {a : EngineArgs} {ext : ExtProbe}
    {usage : Option UsageContext} {cfg : VllmConfig}
    (h : resolveEngineArgs a ext usage = .ok cfg) :
    cfg.scheduler_config.num_lookahead_slots =
      (match cfg.speculative_config with
       | none => max a.num_lookahead_slots (cfg.scheduler_config.num_scheduler_steps - 1)
       | some sc => sc.num_lookahead_slots) ∧
    (ext.is_cpu = false →
      cfg.scheduler_config.num_scheduler_steps = a.num_scheduler_steps) := by
  obtain ⟨-, hspec, hla, hsteps, -, -, -⟩ := resolve_ok_facts h
  refine ⟨?_, hsteps⟩
  rw [hspec]
  exact hla

/-- Claim C2 counterexample: the claim's second example
(`explicit_lookahead_slots = 0`, `scheduler_steps = 4`, a speculative config
mandating 5 → resolved lookahead 5) never produces a resolved value: steps > 1
with a speculative config is a fatal conflict. -/
theorem lookahead_resolution_counterexample :
    resolveEngineArgs argsSteps4Spec extSpec5 none =
      .error { err := .multiStepSpecDecode,
               built := ["DeviceConfig", "ModelConfig", "CacheConfig",
                         "ParallelConfig", "SpeculativeConfig"] } := rfl

def cfgSteps4 : VllmConfig := (resolveEngineArgs argsSteps4 extPlain none).toOption.get!
def cfgSpec5 : VllmConfig := (resolveEngineArgs argsSpecModel extSpec5 none).toOption.get!

theorem lookahead_resolution_witness :
    (resolveEngineArgs argsSteps4 extPlain none = .ok cfgSteps4 ∧
      cfgSteps4.scheduler_config.num_lookahead_slots = 3) ∧
    (resolveEngineArgs argsSpecModel extSpec5 none = .ok cfgSpec5 ∧
      cfgSpec5.scheduler_config.num_lookahead_slots = 5) := by
  have h1 : resolveEngineArgs argsSteps4 extPlain none = .ok cfgSteps4 := rfl
  have h2 : resolveEngineArgs argsSpecModel extSpec5 none = .ok cfgSpec5 := rfl
  refine ⟨⟨h1, ?_⟩, ⟨h2, ?_⟩⟩
  · exact ((lookahead_resolution h1).1).trans (by decide)
  · exact ((lookahead_resolution h2).1).trans (by decide)

/-- Claim C3 (amended): for every input with more than one scheduler step and
a speculative config present, resolution never succeeds.  Unless it is
stopped earlier by a forced-override conflict at the oracle or by the
chunked-prefill/pooling validation, the failure is the multi-step/speculative
ConfigurationConflict, raised after the device, model, cache, parallel and
speculative sub-configurations are built and before any further
sub-configuration. -/
theorem multistep_spec_conflict (a : EngineArgs) (ext : ExtProbe)
    (usage : Option UsageContext)
    (hs : a.num_scheduler_steps > 1) (hp : ext.specConfig.isSome = true) :
    ∃ f, resolveEngineArgs a ext usage = .error f ∧
      (f.err = .multiStepSpecDecode ∨ f.err = .chunkedPrefillPooling ∨
        ∃ s, f.err = .overrideConflict s) ∧
      (f.err = .multiStepSpecDecode →
        f.built = ["DeviceConfig", "ModelConfig", "CacheConfig",
                   "ParallelConfig", "SpeculativeConfig"]) := by
  have ha1 : (createModelConfig (postInit a) ext).1.num_scheduler_steps
      = a.num_scheduler_steps :=
    ((createModelConfig_core (postInit a) ext).1.2.1).trans (postInit_core a).1.2.1
  have hsome := @tierAMatch_isSome_of_steps (createModelConfig (postInit a) ext).1
    (createModelConfig (postInit a) ext).2 ext (by rw [ha1]; omega)
  obtain ⟨f0, hf0⟩ := Option.isSome_iff_exists.mp hsome
  by_cases hov : ext.v1_override = .forceOn
  · refine ⟨{ err := .overrideConflict f0, built := ["DeviceConfig", "ModelConfig"] },
      ?_, Or.inr (Or.inr ⟨f0, rfl⟩), fun hx => by cases hx⟩
    unfold resolveEngineArgs
    exact createEngineConfig_oracle_error (oracle_tierA_forced hf0 hov)
  · have ho := oracle_tierA_unforced hf0 hov
    cases hd : setDefaultArgsV0 (createModelConfig (postInit a) ext).1
        (createModelConfig (postInit a) ext).2 ext with
    | error e =>
      have he := setDefaultArgsV0_error hd
      refine ⟨{ err := e, built := ["DeviceConfig", "ModelConfig"] },
        ?_, Or.inr (Or.inl he), fun hx => by
          have hx' : e = Err.multiStepSpecDecode := hx
          rw [he] at hx'
          cases hx'⟩
      unfold resolveEngineArgs
      exact createEngineConfig_v0_error ho hov hd
    | ok b =>
      have hbs : b.num_scheduler_steps > 1 := by
        rw [(setDefaultArgsV0_ok_core hd).2.1, ha1]; omega
      have hbuild : buildConfigs b (createModelConfig (postInit a) ext).2
          { device := (postInit a).device } false ext =
          .error { err := .multiStepSpecDecode, built := builtBeforeMultiStep ext } := by
        unfold buildConfigs
        rw [multiStepAdjust_spec_error hbs hp]
      refine ⟨{ err := .multiStepSpecDecode, built := builtBeforeMultiStep ext },
        ?_, Or.inl rfl, fun _ => by simp [builtBeforeMultiStep, hp]⟩
      unfold resolveEngineArgs
      rw [createEngineConfig_v0_ok ho hov hd]
      exact hbuild

/-- Claim C3 counterexample: with `scheduler_steps = 2` and a speculative
config present, resolution does fail with the ConfigurationConflict, but the
device, model, cache, parallel and speculative sub-configurations were
already built when it failed — not "before any sub-configuration is built". -/
theorem multistep_spec_conflict_counterexample :
    resolveEngineArgs argsSteps2Spec extSpec5 none =
      .error { err := .multiStepSpecDecode,
               built := ["DeviceConfig", "ModelConfig", "CacheConfig",
                         "ParallelConfig", "SpeculativeConfig"] } ∧
    (["DeviceConfig", "ModelConfig", "CacheConfig", "ParallelConfig",
      "SpeculativeConfig"] : List String) ≠ [] := ⟨rfl, by decide⟩

theorem multistep_spec_conflict_witness :
    (resolveEngineArgs argsSteps2Spec extSpec5 none).isOk = false := by
  obtain ⟨f, hf, -, -⟩ :=
    multistep_spec_conflict argsSteps2Spec extSpec5 none (by decide) (by decide)
  rw [hf]
  rfl

/-- Claim C4 (amended): with chunked prefill explicitly requested true and a
pooling-style model, resolution always fails; when the override does not
force NextGen the failure is the chunked-prefill/pooling validation error;
when it forces NextGen, resolution fails earlier with a configuration
conflict at the oracle (pooling tasks are unsupported on NextGen), so the
pooling validation itself is never reached. -/
theorem chunked_prefill_pooling_check (a : EngineArgs) (ext : ExtProbe)
    (usage : Option UsageContext)
    (hrun : ext.caps.runner_type = "pooling") (htask : ext.caps.task ≠ "generate")
    (hcp : a.enable_chunked_prefill = some true) :
    (∃ f, resolveEngineArgs a ext usage = .error f) ∧
    (ext.v1_override ≠ .forceOn →
      resolveEngineArgs a ext usage =
        .error { err := .chunkedPrefillPooling,
                 built := ["DeviceConfig", "ModelConfig"] }) := by
  have hmc := createModelConfig_core (postInit a) ext
  have ha1cp : (createModelConfig (postInit a) ext).1.enable_chunked_prefill
      = some true := by
    rw [hmc.2.1, (postInit_core a).2.1, hcp]
  have hsome : (tierAMatch (createModelConfig (postInit a) ext).1
      (createModelConfig (postInit a) ext).2 ext).isSome = true := by
    rw [Option.isSome_iff_ne_none]
    intro hn
    exact htask (by rw [← hmc.2.2.2.2.1]; exact tierAMatch_none_task hn)
  obtain ⟨f0, hf0⟩ := Option.isSome_iff_exists.mp hsome
  by_cases hov : ext.v1_override = .forceOn
  · refine ⟨⟨{ err := .overrideConflict f0, built := ["DeviceConfig", "ModelConfig"] }, ?_⟩,
      fun hcon => absurd hov hcon⟩
    unfold resolveEngineArgs
    exact createEngineConfig_oracle_error (oracle_tierA_forced hf0 hov)
  · have ho := oracle_tierA_unforced hf0 hov
    have hderr : setDefaultArgsV0 (createModelConfig (postInit a) ext).1
        (createModelConfig (postInit a) ext).2 ext = .error .chunkedPrefillPooling :=
      setDefaultArgsV0_pooling ha1cp (by rw [hmc.2.2.2.2.2, hrun])
    have hres := @createEngineConfig_v0_error (postInit a) ext usage _ _ ho hov hderr
    exact ⟨⟨_, by unfold resolveEngineArgs; exact hres⟩,
      fun _ => by unfold resolveEngineArgs; exact hres⟩

/-- Claim C4 counterexample: chunked prefill explicitly true, pooling-style
task, override forcing NextGen — resolution fails at the oracle with a
configuration conflict about the task, not with a validation error. -/
theorem chunked_prefill_pooling_check_counterexample :
    resolveEngineArgs argsChunkedTrue extPoolingForce none =
      .error { err := .overrideConflict "--task embed",
               built := ["DeviceConfig", "ModelConfig"] } ∧
    Err.isValidationError (.overrideConflict "--task embed") = false := ⟨rfl, rfl⟩

theorem chunked_prefill_pooling_check_witness :
    resolveEngineArgs argsChunkedTrue extPooling none =
      .error { err := .chunkedPrefillPooling,
               built := ["DeviceConfig", "ModelConfig"] } :=
  (chunked_prefill_pooling_check argsChunkedTrue extPooling none rfl
    (by decide) rfl).2 (by decide)

/-- Claim C5: with a non-default scheduling policy, the compatibility oracle
selects the Legacy runtime (verdict `false`) and emits a warning notice when
the override does not force NextGen; when the override forces NextGen,
resolution fails with a ConfigurationConflict. -/
theorem scheduling_policy_oracle (a : EngineArgs) (mc : ModelConfig) (ext : ExtProbe)
    (usage : Option UsageContext) (h : a.scheduling_policy ≠ "fcfs") :
    (ext.v1_override ≠ .forceOn →
      ∃ f, isV1SupportedOracle a mc ext =
        .ok (false, [{ level := .warning, feature := f }])) ∧
    (ext.v1_override = .forceOn →
      ∃ f, resolveEngineArgs a ext usage = .error f
        ∧ f.err.isConfigurationConflict = true) := by
  constructor
  · intro hov
    obtain ⟨f0, hf0⟩ :=
      Option.isSome_iff_exists.mp (@tierAMatch_isSome_of_policy a mc ext h)
    exact ⟨f0, oracle_tierA_unforced hf0 hov⟩
  · intro hov
    have hpol : (createModelConfig (postInit a) ext).1.scheduling_policy
        = a.scheduling_policy := by
      obtain ⟨-, -, -, -, -, -, -, -, -, -, -, hp1⟩ :=
        (createModelConfig_core (postInit a) ext).1
      obtain ⟨-, -, -, -, -, -, -, -, -, -, -, hp2⟩ := (postInit_core a).1
      exact hp1.trans hp2
    obtain ⟨g0, hg0⟩ := Option.isSome_iff_exists.mp
      (@tierAMatch_isSome_of_policy (createModelConfig (postInit a) ext).1
        (createModelConfig (postInit a) ext).2 ext (by rw [hpol]; exact h))
    refine ⟨{ err := .overrideConflict g0, built := ["DeviceConfig", "ModelConfig"] },
      ?_, rfl⟩
    unfold resolveEngineArgs
    exact createEngineConfig_oracle_error (oracle_tierA_forced hg0 hov)

theorem scheduling_policy_oracle_witness :
    (isV1SupportedOracle argsPolicy (createModelConfig argsPolicy extPlain).2 extPlain
      ).isOk = true ∧
    (resolveEngineArgs argsPolicy extForceOn none).isOk = false := by
  constructor
  · obtain ⟨f, hf⟩ := (scheduling_policy_oracle argsPolicy
      (createModelConfig argsPolicy extPlain).2 extPlain none (by decide)).1 (by decide)
    rw [hf]
    rfl
  · obtain ⟨f, hf, -⟩ := (scheduling_policy_oracle argsPolicy
      (createModelConfig argsPolicy extForceOn).2 extForceOn none (by decide)).2 rfl
    rw [hf]
    rfl

/-- Claim C6: whenever the NextGen (V1) runtime is chosen, the resolved
configuration has chunked prefill enabled, unconditionally. -/
theorem v1_forces_chunked_prefill {a : EngineArgs} {ext : ExtProbe}
    {usage : Option UsageContext} {cfg : VllmConfig}
    (h : resolveEngineArgs a ext usage = .ok cfg) (hv : cfg.use_v1 = true) :
    cfg.scheduler_config.enable_chunked_prefill = some true :=
  (resolve_ok_facts h).2.2.2.2.1 hv

def cfgV1 : VllmConfig := (resolveEngineArgs {} extForceOn (some .llmClass)).toOption.get!
def cfgV1ChunkedOff : VllmConfig :=
  (resolveEngineArgs { enable_chunked_prefill := some false } extForceOn
    (some .llmClass)).toOption.get!

theorem v1_forces_chunked_prefill_witness :
    (resolveEngineArgs {} extForceOn (some .llmClass) = .ok cfgV1 ∧
      cfgV1.use_v1 = true ∧
      cfgV1.scheduler_config.enable_chunked_prefill = some true) ∧
    (resolveEngineArgs { enable_chunked_prefill := some false } extForceOn
        (some .llmClass) = .ok cfgV1ChunkedOff ∧
      cfgV1ChunkedOff.use_v1 = true ∧
      cfgV1ChunkedOff.scheduler_config.enable_chunked_prefill = some true) := by
  have h1 : resolveEngineArgs {} extForceOn (some .llmClass) = .ok cfgV1 := rfl
  have h2 : resolveEngineArgs { enable_chunked_prefill := some false } extForceOn
      (some .llmClass) = .ok cfgV1ChunkedOff := rfl
  exact ⟨⟨h1, rfl, v1_forces_chunked_prefill h1 rfl⟩,
    ⟨h2, rfl, v1_forces_chunked_prefill h2 rfl⟩⟩

/-- Claim C7 (amended): an entry outside {"model", "worker", "all"} makes the
detailed-trace validation loop fail with a ValidationError naming an invalid
entry, and entries all inside the set pass the loop — provided resolution
reaches that check (every successful resolution has passed it); an earlier
failure (e.g. the forced-override conflict at the oracle, for which detailed
tracing is itself a tier-A feature) pre-empts it. -/
theorem trace_modules_validation :
    (∀ mods : List String, (∃ m, m ∈ mods ∧ m ∉ allowedDetailedTraceModules) →
      ∃ m0, m0 ∈ mods ∧ m0 ∉ allowedDetailedTraceModules ∧
        checkTraceLoop mods = .error (.invalidTraceModule m0)) ∧
    (∀ mods : List String, (∀ m, m ∈ mods → m ∈ allowedDetailedTraceModules) →
      checkTraceLoop mods = .ok ()) ∧
    (∀ (a : EngineArgs) (ext : ExtProbe) (usage : Option UsageContext) (cfg : VllmConfig),
      resolveEngineArgs a ext usage = .ok cfg →
      checkTraceLoop (detailedTraceModules a.collect_detailed_traces) = .ok ()) := by
  refine ⟨?_, ?_, ?_⟩
  · intro mods
    induction mods with
    | nil => rintro ⟨m, hm, -⟩; cases hm
    | cons x xs ih =>
      rintro ⟨m, hm, hinv⟩
      by_cases hx : x ∈ allowedDetailedTraceModules
      · have hmem : m ∈ xs := by
          cases hm with
          | head => exact absurd hx hinv
          | tail _ h2 => exact h2
        obtain ⟨m0, hm0, hm0inv, herr⟩ := ih ⟨m, hmem, hinv⟩
        refine ⟨m0, List.mem_cons_of_mem _ hm0, hm0inv, ?_⟩
        unfold checkTraceLoop
        rw [if_pos hx]
        exact herr
      · refine ⟨x, List.mem_cons_self x xs, hx, ?_⟩
        unfold checkTraceLoop
        rw [if_neg hx]
  · intro mods
    induction mods with
    | nil => intro _; rfl
    | cons x xs ih =>
      intro hall
      unfold checkTraceLoop
      rw [if_pos (hall x (List.mem_cons_self x xs))]
      exact ih (fun m hm => hall m (List.mem_cons_of_mem _ hm))
  · intro a ext usage cfg h
    exact (resolve_ok_facts h).2.2.2.2.2.2

/-- Claim C7 counterexample: `collect_detailed_traces = "model,bogus"` with an
override forcing NextGen — resolution fails, but at the oracle with a
configuration conflict about tracing support; no validation error naming
"bogus" is produced, refuting the claim's "for every input". -/
theorem trace_modules_validation_counterexample :
    argsTraceBogus.collect_detailed_traces = some "model,bogus" ∧
    detailedTraceModules argsTraceBogus.collect_detailed_traces = ["model", "bogus"] ∧
    resolveEngineArgs argsTraceBogus extForceOn none =
      .error { err := .overrideConflict "--otlp-traces-endpoint",
               built := ["DeviceConfig", "ModelConfig"] } ∧
    Err.isValidationError (.overrideConflict "--otlp-traces-endpoint") = false :=
  ⟨rfl, by decide, rfl, rfl⟩

theorem trace_modules_validation_witness :
    checkTraceLoop ["model", "bogus"] = .error (.invalidTraceModule "bogus") ∧
    checkTraceLoop ["model", "worker", "all"] = .ok () := by
  constructor
  · obtain ⟨m0, hm0, hinv, herr⟩ := trace_modules_validation.1 ["model", "bogus"]
      ⟨"bogus", by decide, by decide⟩
    have hm0b : m0 = "bogus" := by
      cases hm0 with
      | head => exact absurd (by decide) hinv
      | tail _ h2 =>
        cases h2 with
        | head => rfl
        | tail _ h3 => cases h3
    rw [hm0b] at herr
    exact herr
  · exact trace_modules_validation.2.1 ["model", "worker", "all"] (by decide)

/-- Claim C8: for every successful resolution with LoRA enabled and
`max_cpu_loras` unset or non-positive, the resolved LoRAConfig's
`max_cpu_loras` equals `max_loras`. -/
theorem lora_max_cpu_default {a : EngineArgs} {ext : ExtProbe}
    {usage : Option UsageContext} {cfg : VllmConfig}
    (h : resolveEngineArgs a ext usage = .ok cfg)
    (hl : a.enable_lora = true)
    (hc : a.max_cpu_loras = none ∨ ∃ n, a.max_cpu_loras = some n ∧ n ≤ 0) :
    ∃ lc, cfg.lora_config = some lc ∧ lc.max_cpu_loras = a.max_loras := by
  have hlora := (resolve_ok_facts h).2.2.2.2.2.1
  have harg : maxCpuLorasArg a.max_cpu_loras = none := by
    rcases hc with hc | ⟨n, hn, hle⟩
    · rw [hc]
      rfl
    · rw [hn]
      show (if n > 0 then some n else none) = none
      rw [if_neg (by omega)]
  refine ⟨mkLoRAConfig a.enable_lora_bias a.max_lora_rank a.max_loras
    a.fully_sharded_loras a.lora_extra_vocab_size a.lora_dtype
    (maxCpuLorasArg a.max_cpu_loras), ?_, ?_⟩
  · rw [hlora]
    unfold loraConfigOf
    rw [if_pos hl]
  · unfold mkLoRAConfig
    rw [harg]
    rfl

def cfgLora : VllmConfig := (resolveEngineArgs argsLora extPlain none).toOption.get!

theorem lora_max_cpu_default_witness :
    resolveEngineArgs argsLora extPlain none = .ok cfgLora ∧
    cfgLora.lora_config.map (fun lc => lc.max_cpu_loras) = some 4 := by
  have h : resolveEngineArgs argsLora extPlain none = .ok cfgLora := rfl
  obtain ⟨lc, hlc, hcpu⟩ := lora_max_cpu_default h rfl (Or.inl rfl)
  refine ⟨h, ?_⟩
  rw [hlc, Option.map_some', hcpu]
  rfl

/-- Claim C9: resolution is deterministic — identical raw options, identical
probe results and identical usage context give field-for-field identical
results (the embedding of the resolution pipeline is a pure function of these
three inputs). -/
theorem resolution_deterministic (a1 a2 : EngineArgs) (e1 e2 : ExtProbe)
    (u1 u2 : Option UsageContext) (ha : a1 = a2) (he : e1 = e2) (hu : u1 = u2) :
    resolveEngineArgs a1 e1 u1 = resolveEngineArgs a2 e2 u2 := by
  rw [ha, he, hu]

theorem resolution_deterministic_witness :
    resolveEngineArgs {} extPlain none = resolveEngineArgs {} extPlain none :=
  resolution_deterministic {} {} extPlain extPlain none none rfl rfl rfl

/-- Claim C10: an unset (None or empty) tokenizer is set to the model string
at construction, and every resolution performed with no tokenizer specified
produces a ModelConfig whose tokenizer is the model name or path the caller
supplied. -/
theorem tokenizer_defaults_to_model {a : EngineArgs} {ext : ExtProbe}
    {usage : Option UsageContext} {cfg : VllmConfig}
    (ht : a.tokenizer = none ∨ a.tokenizer = some "")
    (h : resolveEngineArgs a ext usage = .ok cfg) :
    (postInit a).tokenizer = some a.model ∧
    cfg.model_config.tokenizer = some a.model := by
  have h1 := postInit_tokenizer_unset ht
  exact ⟨h1, by rw [(resolve_ok_facts h).1, h1]⟩

def cfgTok : VllmConfig := (resolveEngineArgs {} extPlain none).toOption.get!

theorem tokenizer_defaults_to_model_witness :
    resolveEngineArgs ({} : EngineArgs) extPlain none = .ok cfgTok ∧
    cfgTok.model_config.tokenizer = some "facebook/opt-125m" := by
  have h : resolveEngineArgs ({} : EngineArgs) extPlain none = .ok cfgTok := rfl
  exact ⟨h, (tokenizer_defaults_to_model (Or.inl rfl) h).2⟩
